import Mathlib

/-!
Verification development for the crmventas orchestrator service.

The Python service is shallowly embedded: database tables become lists of
records inside a `Db` structure, each HTTP handler becomes a pure function
from its inputs and the database state to a result and an updated state,
and fallible I/O steps are modelled with explicit fault flags in an `Env`
record (a set flag means the corresponding awaited call raises).

Time is modelled as integer milliseconds.  UUIDs are modelled as naturals.

The `db` helper module of the repository (idempotency-ledger and
conversation-store primitives) is not part of the sources; those
primitives are modelled from the specification, as marked on each
definition.  Everything else is translated from the Python sources:
  orchestrator_service/main.py                   (chat_inbound)
  orchestrator_service/core/security.py          (tenant resolution)
  orchestrator_service/core/services/chat_service.py
  orchestrator_service/admin_routes.py           (override control)
  orchestrator_service/modules/crm_sales/routes.py
-/

namespace CrmVentas

/-- A tenant row (table `tenants`): numeric id, display name, bot-facing
phone number and niche tag. -/
structure Tenant where
  id : Nat
  clinicName : String
  botPhoneNumber : String
  nicheType : Option String
deriving Repr, DecidableEq

/-- A lead row (table `leads`), the CRM contact variant.  Includes the
human-override columns `human_handoff_requested` and
`human_override_until` mutated by the admin override routes. -/
structure Lead where
  id : Nat
  tenantId : Nat
  phoneNumber : String
  firstName : Option String
  lastName : Option String
  email : Option String
  status : Option String
  stageId : Option Nat
  assignedSellerId : Option Nat
  source : Option String
  metaLeadId : Option String
  tags : List String
  createdAt : Int
  updatedAt : Int
  humanHandoffRequested : Bool
  humanOverrideUntil : Option Int
deriving Repr, DecidableEq

/-- A client row (table `clients`). -/
structure Client where
  id : Nat
  tenantId : Nat
  phoneNumber : String
  firstName : Option String
  lastName : Option String
  email : Option String
  status : Option String
  notes : Option String
  createdAt : Int
  updatedAt : Int
deriving Repr, DecidableEq

/-- A patient row (table `patients`), the dental contact variant used by
the dental branch of the chat-session service. -/
structure Patient where
  id : Nat
  tenantId : Nat
  phoneNumber : String
  firstName : String
  lastName : Option String
deriving Repr, DecidableEq

/-- One conversation turn (table `chat_messages`).  Append-only; ordering
is by storage-assigned creation timestamp ascending. -/
structure ChatMessage where
  tenantId : Nat
  fromNumber : String
  role : String
  content : String
  correlationId : String
  createdAt : Int
deriving Repr, DecidableEq

/-- An idempotency-ledger row for one inbound event, keyed by
(provider, provider_message_id); lifecycle state machine
received / processing / done / failed. -/
structure LedgerEntry where
  provider : String
  providerMessageId : String
  eventId : String
  sender : String
  state : String
  errorDetail : Option String
deriving Repr, DecidableEq

/-- A staff row (table `professionals`); `tenantId` is nullable in the
database, `userId` is the owning account. -/
structure Professional where
  id : Nat
  tenantId : Option Nat
  userId : Nat
  firstName : Option String
  lastName : Option String
deriving Repr, DecidableEq

/-- An account row (table `users`), reduced to the columns the embedded
operations read. -/
structure UserRow where
  id : Nat
  role : String
deriving Repr, DecidableEq

/-- A seller agenda event row (table `seller_agenda_events`). -/
structure AgendaEvent where
  id : Nat
  tenantId : Nat
  sellerId : Nat
  title : String
  startDatetime : Int
  endDatetime : Int
  leadId : Option Nat
  clientId : Option Nat
  status : String
  createdAt : Int
deriving Repr, DecidableEq

/-- The whole storage state, together with the storage clock `now`
(milliseconds) used to assign creation timestamps, and the next serial
client id. -/
structure Db where
  tenants : List Tenant
  leads : List Lead
  clients : List Client
  patients : List Patient
  chatMessages : List ChatMessage
  inboundLedger : List LedgerEntry
  professionals : List Professional
  users : List UserRow
  agendaEvents : List AgendaEvent
  now : Int
  nextClientId : Nat
deriving Repr, DecidableEq

/-- The authenticated identity decoded from the JWT (user_data in
core/security.py): account id and role. -/
structure AuthUser where
  userId : Nat
  role : String
deriving Repr, DecidableEq

/-- Python truthiness of an optional string followed by `or d`:
`x or d` yields `d` when `x` is None or empty. -/
def pyOr (x : Option String) (d : String) : String :=
  match x with
  | none => d
  | some s => if s = "" then d else s

/-- Python truthiness test of an optional string (`if x:`). -/
def truthy (x : Option String) : Bool :=
  match x with
  | none => false
  | some s => s ≠ ""

/-- Python str.strip(): drop whitespace from both ends (structural model
over the character list). -/
def pyStrip (s : String) : String :=
  ⟨((s.data.dropWhile Char.isWhitespace).reverse.dropWhile Char.isWhitespace).reverse⟩

/-- The last `n` elements of a list, in order. -/
def lastN (n : Nat) (l : List α) : List α := l.drop (l.length - n)

/-- SELECT MIN semantics of tenants ORDER BY id ASC LIMIT 1 in
core/security.py: the least tenant id, if any tenant exists. -/
def firstTenantIdAsc (db : Db) : Option Nat :=
  db.tenants.foldr
    (fun t acc =>
      match acc with
      | none => some t.id
      | some i => some (Nat.min t.id i)) none

/-- The tenant id of the professionals row bound to the identity
(SELECT tenant_id FROM professionals WHERE user_id, fetchval). -/
def professionalTenantOf (db : Db) (u : AuthUser) : Option Nat :=
  match db.professionals.find? (fun p => p.userId = u.userId) with
  | some p => p.tenantId
  | none => none

/-- core/security.py get_resolved_tenant_id: the staff tenant when the
identity has a professionals row with a tenant id, else the first tenant
in ascending id order, else 1. -/
def get_resolved_tenant_id (db : Db) (u : AuthUser) : Nat :=
  match professionalTenantOf db u with
  | some tid => tid
  | none =>
    match firstTenantIdAsc db with
    | some i => i
    | none => 1

/-- Insertion of a value into a list ascending by an integer key. -/
def insertByKey (key : α → Int) (x : α) : List α → List α
  | [] => [x]
  | y :: ys => if key x ≤ key y then x :: y :: ys else y :: insertByKey key x ys

/-- Insertion sort ascending by an integer key (ORDER BY key ASC). -/
def sortByKeyAsc (key : α → Int) (l : List α) : List α :=
  l.foldr (insertByKey key) []

/-- core/security.py get_allowed_tenant_ids: every tenant id (ascending)
for the ceo role, else the singleton staff tenant, else the singleton
first tenant, with 1 as the empty-database fallback. -/
def get_allowed_tenant_ids (db : Db) (u : AuthUser) : List Nat :=
  if u.role = "ceo" then
    let ids := sortByKeyAsc (fun i => Int.ofNat i) (db.tenants.map (fun t => t.id))
    if ids.isEmpty then [1] else ids
  else
    match professionalTenantOf db u with
    | some tid => [tid]
    | none =>
      match firstTenantIdAsc db with
      | some i => [i]
      | none => [1]

/-- main.py lines 151-159: tenant resolution from the destination phone.
Defaults to tenant 1; when to_number is truthy and a tenants row has that
bot_phone_number, that row id wins (LIMIT 1 = first match). -/
def resolveTenantId (tenants : List Tenant) (toNumber : Option String) : Nat :=
  match toNumber with
  | none => 1
  | some p =>
    if p = "" then 1
    else
      match tenants.find? (fun t => t.botPhoneNumber = p) with
      | some t => t.id
      | none => 1

/-- Whether the ledger already holds the deduplication key. -/
def ledgerHasKey (db : Db) (provider pmid : String) : Bool :=
  db.inboundLedger.any (fun e => e.provider = provider ∧ e.providerMessageId = pmid)

/-- Modelled from the spec: db.try_insert_inbound (the `record` operation
of the Idempotency Ledger, section 4.2; the helper module is not in the
sources).  Atomically inserts a row in state received keyed by
(provider, provider_message_id); a no-op reporting false when the key is
already present. -/
def try_insert_inbound (db : Db) (provider pmid eventId sender correlationId : String) :
    Bool × Db :=
  if ledgerHasKey db provider pmid then (false, db)
  else
    (true,
      { db with
        inboundLedger :=
          { provider := provider, providerMessageId := pmid, eventId := eventId,
            sender := sender, state := state0, errorDetail := none } :: db.inboundLedger })
where
  state0 : String := "received"

/-- Modelled from the spec: the ledger `transition` operation backing
db.mark_inbound_processing / mark_inbound_done / mark_inbound_failed
(section 4.2; the helper module is not in the sources).  Advances the
state of the rows with the given key. -/
def setLedgerState (db : Db) (provider pmid newState : String) (err : Option String) : Db :=
  { db with
    inboundLedger :=
      db.inboundLedger.map
        (fun e =>
          if e.provider = provider ∧ e.providerMessageId = pmid then
            { e with state := newState, errorDetail := err }
          else e) }

/-- The state of the ledger row holding the given key, if present. -/
def ledgerStateOf (db : Db) (provider pmid : String) : Option String :=
  (db.inboundLedger.find?
      (fun e => e.provider = provider ∧ e.providerMessageId = pmid)).map
    (fun e => e.state)

/-- Modelled from the spec: db.ensure_lead_exists (section 4.5 step 4;
the helper module is not in the sources).  Creates the contact for
(tenant, sender phone) lazily with the supplied display name and source
tag when absent; otherwise a no-op. -/
def ensure_lead_exists (db : Db) (tenantId : Nat) (phone : String)
    (customerName : Option String) (source : String) : Db :=
  if db.leads.any (fun l => l.tenantId = tenantId ∧ l.phoneNumber = phone) then db
  else
    { db with
      leads :=
        db.leads ++
          [{ id := db.leads.length, tenantId := tenantId, phoneNumber := phone,
             firstName := customerName, lastName := none, email := none,
             status := some "new", stageId := none, assignedSellerId := none,
             source := some source, metaLeadId := none, tags := [],
             createdAt := db.now, updatedAt := db.now,
             humanHandoffRequested := false, humanOverrideUntil := none }] }

/-- Modelled from the spec: db.append_chat_message (Conversation Store
`append`, section 4.3; the helper module is not in the sources).  Appends
one turn with a storage-assigned timestamp; the clock is bumped so stored
timestamps are strictly increasing. -/
def append_chat_message (db : Db) (fromNumber role content correlationId : String)
    (tenantId : Nat) : Db :=
  { db with
    chatMessages :=
      db.chatMessages ++
        [{ tenantId := tenantId, fromNumber := fromNumber, role := role,
           content := content, correlationId := correlationId, createdAt := db.now }],
    now := db.now + 1 }

/-- Modelled from the spec: db.get_chat_history (Conversation Store
`history`, section 4.3; the helper module is not in the sources).  The
most recent `limit` messages of (tenant, contact phone), oldest to
newest; the store list is kept in creation order. -/
def get_chat_history (db : Db) (fromNumber : String) (limit : Nat) (tenantId : Nat) :
    List ChatMessage :=
  lastN limit
    (db.chatMessages.filter (fun m => m.tenantId = tenantId ∧ m.fromNumber = fromNumber))

/-- main.py lines 180-181: drop the trailing history entry when it is the
just-appended current user turn. -/
def dropCurrentTurn (text : String) (hist : List ChatMessage) : List ChatMessage :=
  match hist.getLast? with
  | some m => if m.content = text ∧ m.role = "user" then hist.dropLast else hist
  | none => hist

/-- Fault-injection environment for chat_inbound: a set flag makes the
corresponding awaited call raise.  `agentReply` is the opaque agent
capability output (result.get output). -/
structure Env where
  failTenantLookup : Bool
  failEnsureLead : Bool
  failAppendUser : Bool
  failHistory : Bool
  failAgent : Bool
  failAppendAssistant : Bool
  agentReply : Option String
deriving Repr, DecidableEq

/-- An environment in which no storage or agent call fails. -/
def faultFree (env : Env) : Bool :=
  !env.failTenantLookup && !env.failEnsureLead && !env.failAppendUser &&
    !env.failHistory && !env.failAgent && !env.failAppendAssistant

/-- The JSON body of one inbound event delivery. -/
structure InboundBody where
  provider : Option String
  eventId : Option String
  providerMessageId : Option String
  fromNumber : Option String
  text : Option String
  customerName : Option String
  toNumber : Option String
  correlationId : Option String
deriving Repr, DecidableEq

/-- The JSON response of chat_inbound. -/
structure ChatResponse where
  status : String
  send : Bool
  text : Option String
  errorDetail : Option String
deriving Repr, DecidableEq

/-- How a chat_inbound call terminates: an HTTPException (4xx), an
uncaught exception propagated to the framework (5xx), or a JSON
response. -/
inductive ChatOutcome where
  | badRequest (code : Nat) (detail : String)
  | raised (detail : String)
  | resp (r : ChatResponse)
deriving Repr, DecidableEq

/-- Observable side channel of one chat_inbound call: logger lines and,
for each agent invocation, the history window and current input handed
to the agent. -/
structure Trace where
  logs : List String
  agentHistories : List (List ChatMessage)
  agentInputs : List String
deriving Repr, DecidableEq

/-- The empty trace. -/
def Trace.empty : Trace := { logs := [], agentHistories := [], agentInputs := [] }

/-- main.py chat_inbound (lines 126-204): the inbound-event ingestion
pipeline.  Field extraction with Python or-defaults, the 400 guard,
tenant resolution, ledger record (duplicate stop), processing mark, then
the try block: ensure lead, append user turn, read history minus the
current turn, invoke the agent, append the assistant turn, mark done;
any failure inside the try block is logged, marks the ledger failed and
yields the error response. -/
def chat_inbound (env : Env) (db : Db) (body : InboundBody) :
    ChatOutcome × Db × Trace :=
  let provider := pyOr body.provider "ycloud"
  let eventId := pyOr body.eventId ""
  let pmid := pyOr body.providerMessageId eventId
  let fromNumber := pyOr body.fromNumber ""
  let text := pyOr body.text ""
  let correlationId := pyOr body.correlationId ""
  if fromNumber = "" then
    (ChatOutcome.badRequest 400 "from_number and text required", db, Trace.empty)
  else if truthy body.toNumber && env.failTenantLookup then
    -- the tenants lookup happens before the ledger insert and outside the
    -- try block, so its failure propagates uncaught
    (ChatOutcome.raised "tenant lookup failed", db, Trace.empty)
  else
    let tenantId := resolveTenantId db.tenants body.toNumber
    let ins := try_insert_inbound db provider pmid eventId fromNumber correlationId
    if !ins.1 then
      (ChatOutcome.resp { status := "duplicate", send := false, text := none, errorDetail := none },
        ins.2, Trace.empty)
    else
      let db2 := setLedgerState ins.2 provider pmid "processing" none
      if env.failEnsureLead then
        (ChatOutcome.resp { status := "error", send := false, text := none, errorDetail := some "ensure lead failed" },
          setLedgerState db2 provider pmid "failed" (some "ensure lead failed"),
          { logs := ["chat_inbound_error"], agentHistories := [], agentInputs := [] })
      else
        let db3 := ensure_lead_exists db2 tenantId fromNumber body.customerName "whatsapp"
        if env.failAppendUser then
          (ChatOutcome.resp { status := "error", send := false, text := none, errorDetail := some "append user failed" },
            setLedgerState db3 provider pmid "failed" (some "append user failed"),
            { logs := ["chat_inbound_error"], agentHistories := [], agentInputs := [] })
        else
          let db4 := append_chat_message db3 fromNumber "user" text correlationId tenantId
          if env.failHistory then
            (ChatOutcome.resp { status := "error", send := false, text := none, errorDetail := some "history read failed" },
              setLedgerState db4 provider pmid "failed" (some "history read failed"),
              { logs := ["chat_inbound_error"], agentHistories := [], agentInputs := [] })
          else
            let historyGiven := dropCurrentTurn text (get_chat_history db4 fromNumber 15 tenantId)
            if env.failAgent then
              (ChatOutcome.resp { status := "error", send := false, text := none, errorDetail := some "agent invocation failed" },
                setLedgerState db4 provider pmid "failed" (some "agent invocation failed"),
                { logs := ["chat_inbound_error"], agentHistories := [historyGiven], agentInputs := [text] })
            else
              let output := pyStrip (pyOr env.agentReply "")
              if env.failAppendAssistant then
                (ChatOutcome.resp { status := "error", send := false, text := none, errorDetail := some "append assistant failed" },
                  setLedgerState db4 provider pmid "failed" (some "append assistant failed"),
                  { logs := ["chat_inbound_error"], agentHistories := [historyGiven], agentInputs := [text] })
              else
                let db5 := append_chat_message db4 fromNumber "assistant" output correlationId tenantId
                let db6 := setLedgerState db5 provider pmid "done" none
                (ChatOutcome.resp { status := "ok", send := true, text := some output, errorDetail := none },
                  db6,
                  { logs := [], agentHistories := [historyGiven], agentInputs := [text] })

/-- Request body of the human-intervention toggle
(admin_routes.py HumanInterventionToggle); the pydantic default of
`duration` is 86400000 ms. -/
structure HumanInterventionToggle where
  phone : String
  tenantId : Nat
  activate : Bool
  duration : Option Int
deriving Repr, DecidableEq

/-- Payload of the HUMAN_OVERRIDE_CHANGED notification event emitted to
the socket bus by the override routes. -/
structure OverrideEvent where
  phoneNumber : String
  tenantId : Nat
  enabled : Bool
  untilTs : Option Int
deriving Repr, DecidableEq

/-- JSON response of the override control routes. -/
structure OverrideResponse where
  status : String
  phone : String
  tenantId : Nat
  untilTs : Option Int
deriving Repr, DecidableEq

/-- Result of an authenticated admin route: an HTTP error status or a
value. -/
inductive AdminResult (α : Type) where
  | httpError (code : Nat)
  | ok (value : α)
deriving Repr, DecidableEq

/-- Python `payload.duration or 86400000`: a missing, null or zero
duration falls back to the 24 hour default. -/
def effectiveDuration (d : Option Int) : Int :=
  match d with
  | none => 86400000
  | some k => if k = 0 then 86400000 else k

/-- Whether a leads row is hit by the override UPDATE for the payload:
same tenant and phone equal to either the normalized or the raw payload
phone (`norm` stands for core.utils.normalize_phone, whose source is not
in the repository; the routes are parametrized by it). -/
def overrideRowMatch (norm : String → String) (phone : String) (tenantId : Nat)
    (l : Lead) : Bool :=
  l.tenantId = tenantId ∧ (l.phoneNumber = norm phone ∨ l.phoneNumber = phone)

/-- admin_routes.py toggle_human_intervention (lines 126-144): guard on
the allowed tenants, then either set human_handoff_requested and
human_override_until = now + (duration or 86400000) on the matching
leads rows and emit an enabled event, or clear both columns and emit a
disabled event. -/
def toggle_human_intervention (norm : String → String) (db : Db) (u : AuthUser)
    (payload : HumanInterventionToggle) :
    AdminResult OverrideResponse × Db × List OverrideEvent :=
  if payload.tenantId ∈ get_allowed_tenant_ids db u then
    if payload.activate then
      let untilTs := db.now + effectiveDuration payload.duration
      let db' :=
        { db with
          leads :=
            db.leads.map
              (fun l =>
                if overrideRowMatch norm payload.phone payload.tenantId l then
                  { l with humanHandoffRequested := true,
                           humanOverrideUntil := some untilTs, updatedAt := db.now }
                else l) }
      (AdminResult.ok
          { status := "activated", phone := payload.phone,
            tenantId := payload.tenantId, untilTs := some untilTs },
        db',
        [{ phoneNumber := payload.phone, tenantId := payload.tenantId,
           enabled := true, untilTs := some untilTs }])
    else
      let db' :=
        { db with
          leads :=
            db.leads.map
              (fun l =>
                if overrideRowMatch norm payload.phone payload.tenantId l then
                  { l with humanHandoffRequested := false,
                           humanOverrideUntil := none, updatedAt := db.now }
                else l) }
      (AdminResult.ok
          { status := "deactivated", phone := payload.phone,
            tenantId := payload.tenantId, untilTs := none },
        db',
        [{ phoneNumber := payload.phone, tenantId := payload.tenantId,
           enabled := false, untilTs := none }])
  else (AdminResult.httpError 403, db, [])

/-- admin_routes.py remove_silence (lines 150-159): unconditional clear of
the override columns on the matching leads rows, same update and event
as deactivation, response status removed. -/
def remove_silence (norm : String → String) (db : Db) (u : AuthUser)
    (phone : String) (tenantId : Nat) :
    AdminResult OverrideResponse × Db × List OverrideEvent :=
  if tenantId ∈ get_allowed_tenant_ids db u then
    let db' :=
      { db with
        leads :=
          db.leads.map
            (fun l =>
              if overrideRowMatch norm phone tenantId l then
                { l with humanHandoffRequested := false,
                         humanOverrideUntil := none, updatedAt := db.now }
              else l) }
    (AdminResult.ok
        { status := "removed", phone := phone, tenantId := tenantId, untilTs := none },
      db',
      [{ phoneNumber := phone, tenantId := tenantId, enabled := false, untilTs := none }])
  else (AdminResult.httpError 403, db, [])

/-- One row of the chat-sessions listing (chat_service.py): the contact
and its most recent message. -/
structure ChatSession where
  phoneNumber : String
  contactId : Nat
  contactName : String
  contactType : String
  lastMessage : Option String
deriving Repr, DecidableEq

/-- The content of the most recent chat message of (tenant, phone)
(ORDER BY created_at DESC picked first; the store is kept in creation
order, so that is the last element). -/
def lastMessageFor (db : Db) (tenantId : Nat) (phone : String) : Option String :=
  ((db.chatMessages.filter
        (fun m => m.fromNumber = phone ∧ m.tenantId = tenantId)).getLast?).map
    (fun m => m.content)

/-- chat_service.py _get_crm_sessions: one session row per distinct lead
phone of the tenant, with the lead identity and the latest message. -/
def crmSessions (db : Db) (tenantId : Nat) : List ChatSession :=
  let ls := db.leads.filter (fun l => l.tenantId = tenantId)
  ((ls.map (fun l => l.phoneNumber)).dedup).filterMap
    (fun p =>
      match ls.find? (fun l => l.phoneNumber = p) with
      | some l =>
        some
          { phoneNumber := p, contactId := l.id,
            contactName := pyStrip ((pyOr l.firstName "") ++ " " ++ pyOr l.lastName ""),
            contactType := "lead", lastMessage := lastMessageFor db tenantId p }
      | none => none)

/-- chat_service.py _get_dental_sessions: as crmSessions but over the
patients table. -/
def dentalSessions (db : Db) (tenantId : Nat) : List ChatSession :=
  let ps := db.patients.filter (fun q => q.tenantId = tenantId)
  ((ps.map (fun q => q.phoneNumber)).dedup).filterMap
    (fun p =>
      match ps.find? (fun q => q.phoneNumber = p) with
      | some q =>
        some
          { phoneNumber := p, contactId := q.id,
            contactName := pyStrip (q.firstName ++ " " ++ pyOr q.lastName ""),
            contactType := "patient", lastMessage := lastMessageFor db tenantId p }
      | none => none)

/-- chat_service.py get_chat_sessions niche dispatch: the tenants row
niche_type, with dental as the falsy default. -/
def nicheOf (db : Db) (tenantId : Nat) : String :=
  match db.tenants.find? (fun t => t.id = tenantId) with
  | some t =>
    match t.nicheType with
    | some n => if n = "" then "dental" else n
    | none => "dental"
  | none => "dental"

/-- admin_routes.py get_chat_sessions (lines 100-104): reject 403 when the
target tenant is outside the allowed set, else dispatch on the niche. -/
def get_chat_sessions (db : Db) (u : AuthUser) (tenantId : Nat) :
    AdminResult (List ChatSession) :=
  if tenantId ∈ get_allowed_tenant_ids db u then
    AdminResult.ok
      (if nicheOf db tenantId = "dental" then dentalSessions db tenantId
       else if nicheOf db tenantId = "crm_sales" then crmSessions db tenantId
       else [])
  else AdminResult.httpError 403

/-- admin_routes.py get_chat_messages (lines 106-110): reject 403 on a
disallowed tenant, else the page (ORDER BY created_at DESC LIMIT OFFSET)
of the (phone, tenant) messages, re-sorted ascending for the response. -/
def get_chat_messages (db : Db) (u : AuthUser) (phone : String) (tenantId : Nat)
    (limit offset : Nat) : AdminResult (List ChatMessage) :=
  if tenantId ∈ get_allowed_tenant_ids db u then
    let filtered :=
      db.chatMessages.filter (fun m => m.fromNumber = phone ∧ m.tenantId = tenantId)
    let desc := sortByKeyAsc (fun m => -m.createdAt) filtered
    let page := (desc.drop offset).take limit
    AdminResult.ok (sortByKeyAsc (fun m => m.createdAt) page)
  else AdminResult.httpError 403

/-- Whether the account is a seller role (setter or closer). -/
def isSellerRole (r : String) : Bool := r = "setter" || r = "closer"

/-- Whether the tenant is a CRM tenant under COALESCE(niche_type,
chosen default) = crm_sales. -/
def isCrmTenant (db : Db) (tenantId : Nat) (dflt : String) : Bool :=
  db.tenants.any
    (fun t =>
      t.id = tenantId ∧
        (match t.nicheType with | some n => n | none => dflt) = "crm_sales")

/-- The professionals row of a seller (joined with users role setter or
closer and a CRM tenant), as looked up by the seller analytics and
agenda routes. -/
def sellerRowFor (db : Db) (profId tenantId : Nat) : Option Professional :=
  db.professionals.find?
    (fun p =>
      p.id = profId ∧ p.tenantId = some tenantId ∧
        db.users.any (fun w => w.id = p.userId ∧ isSellerRole w.role) ∧
        isCrmTenant db tenantId "dental")

/-- Aggregate output of the seller analytics route. -/
structure SellerAnalytics where
  sellerId : Nat
  userId : Nat
  totalLeads : Nat
  byStatus : List (Option String × Nat)
deriving Repr, DecidableEq

/-- crm_sales/routes.py get_seller_analytics (lines 774-830): reject 403
on a disallowed tenant, 404 when the professional is not a seller of the
tenant, else lead counts (total and grouped by status) over the leads of
the tenant assigned to the seller account inside the date range. -/
def get_seller_analytics (db : Db) (u : AuthUser) (profId tenantId : Nat)
    (startTs endTs : Int) : AdminResult SellerAnalytics :=
  if tenantId ∈ get_allowed_tenant_ids db u then
    match sellerRowFor db profId tenantId with
    | none => AdminResult.httpError 404
    | some p =>
      let matching :=
        db.leads.filter
          (fun l =>
            l.tenantId = tenantId ∧ l.assignedSellerId = some p.userId ∧
              startTs ≤ l.createdAt ∧ l.createdAt ≤ endTs)
      AdminResult.ok
        { sellerId := profId, userId := p.userId, totalLeads := matching.length,
          byStatus :=
            ((matching.map (fun l => l.status)).dedup).map
              (fun s => (s, (matching.filter (fun l => l.status = s)).length)) }
  else AdminResult.httpError 403

/-- The optional seller filter of the agenda listing. -/
def agendaSellerOk (sellerFilter : Option Nat) (e : AgendaEvent) : Bool :=
  match sellerFilter with
  | some s => e.sellerId = s
  | none => true

/-- crm_sales/routes.py list_agenda_events (lines 876-919): the tenant is
the resolved context tenant; reject 403 when it is outside the allowed
set, else the non-cancelled events of the tenant overlapping the window,
joined to a seller professional of a CRM tenant, optionally filtered by
seller, ordered by start ascending. -/
def list_agenda_events (db : Db) (u : AuthUser) (startTs endTs : Int)
    (sellerFilter : Option Nat) : AdminResult (List AgendaEvent) :=
  let tenantId := get_resolved_tenant_id db u
  if tenantId ∈ get_allowed_tenant_ids db u then
    AdminResult.ok
      (sortByKeyAsc (fun e => e.startDatetime)
        (db.agendaEvents.filter
          (fun e =>
            e.tenantId = tenantId ∧ e.status ≠ "cancelled" ∧
              e.startDatetime < endTs ∧ startTs < e.endDatetime ∧
              db.professionals.any
                (fun p =>
                  p.id = e.sellerId ∧
                    db.users.any (fun w => w.id = p.userId ∧ isSellerRole w.role)) ∧
              isCrmTenant db e.tenantId "dental" ∧
              agendaSellerOk sellerFilter e)))
  else AdminResult.httpError 403

/-- Python `(x or "").strip() or None`. -/
def pyStripOrNone (x : Option String) : Option String :=
  let s := pyStrip (pyOr x "")
  if s = "" then none else some s

/-- Fault injection for the lead-to-client conversion: a set flag makes
the corresponding SQL statement raise. -/
structure CrmEnv where
  failClientInsert : Bool
  failLeadUpdate : Bool
deriving Repr, DecidableEq

/-- How a CRM route call terminates. -/
inductive CrmOutcome where
  | httpError (code : Nat) (detail : String)
  | raised (detail : String)
  | ok (c : Client)
deriving Repr, DecidableEq

/-- crm_sales/routes.py convert_lead_to_client (lines 286-326): 404 when
the lead is missing, 400 when a client with the lead phone already
exists in the tenant, else INSERT the client and then, in a separate
statement, UPDATE the lead status to closed_won.  The two statements are
not wrapped in a transaction: a failure of the update leaves the
inserted client behind. -/
def convert_lead_to_client (env : CrmEnv) (db : Db) (tenantId : Nat) (leadId : Nat) :
    CrmOutcome × Db :=
  match db.leads.find? (fun l => l.id = leadId ∧ l.tenantId = tenantId) with
  | none => (CrmOutcome.httpError 404 "Lead not found", db)
  | some lead =>
    match db.clients.find?
        (fun c => c.tenantId = tenantId ∧ c.phoneNumber = lead.phoneNumber) with
    | some _ => (CrmOutcome.httpError 400 "client with that phone already exists", db)
    | none =>
      if env.failClientInsert then (CrmOutcome.raised "client insert failed", db)
      else
        let newClient : Client :=
          { id := db.nextClientId, tenantId := tenantId,
            phoneNumber := lead.phoneNumber,
            firstName := pyStripOrNone lead.firstName,
            lastName := pyStripOrNone lead.lastName,
            email := pyStripOrNone lead.email,
            status := some "active", notes := none,
            createdAt := db.now, updatedAt := db.now }
        let db1 :=
          { db with clients := db.clients ++ [newClient],
                    nextClientId := db.nextClientId + 1 }
        if env.failLeadUpdate then (CrmOutcome.raised "lead update failed", db1)
        else
          let db2 :=
            { db1 with
              leads :=
                db1.leads.map
                  (fun l =>
                    if l.id = leadId ∧ l.tenantId = tenantId then
                      { l with status := some "closed_won", updatedAt := db.now }
                    else l) }
          (CrmOutcome.ok newClient, db2)

/-- ILIKE with a pct-wrapped pattern: case-insensitive substring match;
NULL columns never match. -/
def ilikeContains (field : Option String) (pat : String) : Bool :=
  match field with
  | none => false
  | some s => (s.toLower.splitOn pat.toLower).length > 1

/-- The optional status filter of list_leads (a falsy empty string is
skipped just as in Python). -/
def leadStatusOk (statusFilter : Option String) (l : Lead) : Bool :=
  match statusFilter with
  | some s => if s = "" then true else l.status = some s
  | none => true

/-- The optional assigned-seller filter of list_leads. -/
def leadSellerOk (sellerFilter : Option Nat) (l : Lead) : Bool :=
  match sellerFilter with
  | some sid => l.assignedSellerId = some sid
  | none => true

/-- The optional search filter of list_leads: ILIKE over first name, last
name, phone and email (a blank search is skipped as in Python). -/
def leadSearchOk (search : Option String) (l : Lead) : Bool :=
  match search with
  | some q =>
    if pyStrip q = "" then true
    else
      ilikeContains l.firstName (pyStrip q) || ilikeContains l.lastName (pyStrip q) ||
        ilikeContains (some l.phoneNumber) (pyStrip q) || ilikeContains l.email (pyStrip q)
  | none => true

/-- crm_sales/routes.py list_leads (lines 29-73): the leads of the
context tenant, excluding soft-deleted rows (status IS NULL OR status
distinct from deleted), with the optional status, seller and search
filters, ordered by created_at descending, paged by LIMIT and OFFSET.
The Python falsiness of the optional query params is preserved. -/
def list_leads (db : Db) (tenantId : Nat) (statusFilter : Option String)
    (sellerFilter : Option Nat) (search : Option String) (limit offset : Nat) :
    List Lead :=
  let base :=
    db.leads.filter
      (fun l =>
        l.tenantId = tenantId ∧ (l.status = none ∨ l.status ≠ some "deleted") ∧
          leadStatusOk statusFilter l ∧ leadSellerOk sellerFilter l ∧
          leadSearchOk search l)
  ((sortByKeyAsc (fun l => -l.createdAt) base).drop offset).take limit

/-- crm_sales/routes.py get_lead (lines 153-172): the lead by id inside
the context tenant, with no status filter at all, or 404. -/
def get_lead (db : Db) (tenantId : Nat) (leadId : Nat) : AdminResult Lead :=
  match db.leads.find? (fun l => l.id = leadId ∧ l.tenantId = tenantId) with
  | some l => AdminResult.ok l
  | none => AdminResult.httpError 404

/-! ### Helper lemmas about the list combinators of the embedding -/

theorem mem_insertByKey (key : α → Int) (x a : α) (l : List α) :
    a ∈ insertByKey key x l ↔ a = x ∨ a ∈ l := by
  induction l with
  | nil => simp [insertByKey]
  | cons y ys ih =>
    by_cases h : key x ≤ key y
    · simp [insertByKey, h]
    · simp only [insertByKey, if_neg h, List.mem_cons, ih]
      tauto

theorem mem_sortByKeyAsc (key : α → Int) (l : List α) (a : α) :
    a ∈ sortByKeyAsc key l ↔ a ∈ l := by
  induction l with
  | nil => simp [sortByKeyAsc]
  | cons x xs ih =>
    show a ∈ insertByKey key x (sortByKeyAsc key xs) ↔ _
    rw [mem_insertByKey]
    simp [ih]

theorem lastN_subset (n : Nat) (l : List α) : ∀ a ∈ lastN n l, a ∈ l :=
  fun _ h => List.drop_subset _ _ h

theorem lastN_concat (n : Nat) (l : List α) (x : α) :
    lastN (n + 1) (l ++ [x]) = lastN n l ++ [x] := by
  unfold lastN
  rw [List.length_append, List.drop_append_eq_append_drop]
  have h1 : l.length + [x].length - (n + 1) = l.length - n := by
    simp only [List.length_singleton]
    omega
  have h2 : l.length - n - l.length = 0 := by omega
  rw [h1, h2]
  simp

theorem dropCurrentTurn_concat (text : String) (l : List ChatMessage)
    (cur : ChatMessage) (hc : cur.content = text) (hr : cur.role = "user") :
    dropCurrentTurn text (l ++ [cur]) = l := by
  unfold dropCurrentTurn
  rw [List.getLast?_concat]
  simp [hc, hr]

/-- The tenants min-fold is none exactly on the empty table. -/
theorem tenantsMinFold_eq_none (l : List Tenant) :
    (l.foldr
        (fun t acc =>
          match acc with
          | none => some t.id
          | some i => some (Nat.min t.id i)) none) = none ↔ l = [] := by
  cases l with
  | nil => simp
  | cons t ts =>
    simp only [List.foldr]
    constructor
    · intro h
      exfalso
      cases hts : ts.foldr
          (fun t acc =>
            match acc with
            | none => some t.id
            | some i => some (Nat.min t.id i)) none with
      | none => rw [hts] at h; exact Option.noConfusion h
      | some j => rw [hts] at h; exact Option.noConfusion h
    · intro h
      exact List.noConfusion h

/-- The first tenant in ascending id order is a member of least id. -/
theorem firstTenantIdAsc_spec (l : List Tenant) (i : Nat)
    (h :
      (l.foldr
          (fun t acc =>
            match acc with
            | none => some t.id
            | some j => some (Nat.min t.id j)) none) = some i) :
    (∃ t ∈ l, t.id = i) ∧ ∀ t ∈ l, i ≤ t.id := by
  induction l generalizing i with
  | nil => simp at h
  | cons t ts ih =>
    simp only [List.foldr] at h
    cases hts : ts.foldr
        (fun t acc =>
          match acc with
          | none => some t.id
          | some j => some (Nat.min t.id j)) none with
    | none =>
      have hnil : ts = [] := (tenantsMinFold_eq_none ts).mp hts
      rw [hts] at h
      simp only [Option.some.injEq] at h
      subst hnil
      refine ⟨⟨t, by simp, h⟩, ?_⟩
      intro t' ht'
      simp at ht'
      subst ht'
      omega
    | some j =>
      rw [hts] at h
      simp only [Option.some.injEq] at h
      obtain ⟨⟨t', ht'm, ht'id⟩, hbound⟩ := ih j hts
      rcases Nat.le_total t.id j with hle | hle
      · have hm : Nat.min t.id j = t.id := Nat.min_eq_left hle
        rw [hm] at h
        refine ⟨⟨t, by simp, h⟩, ?_⟩
        intro x hx
        simp at hx
        rcases hx with rfl | hx
        · omega
        · have := hbound x hx
          omega
      · have hm : Nat.min t.id j = j := Nat.min_eq_right hle
        rw [hm] at h
        refine ⟨⟨t', by simp [ht'm], by omega⟩, ?_⟩
        intro x hx
        simp at hx
        rcases hx with rfl | hx
        · omega
        · have := hbound x hx
          omega

/-! ### Concrete fixtures used by evaluation theorems and witnesses -/

/-- A lead of tenant 7 for phone +100 whose human override is active
until timestamp 5000. -/
def leadOv : Lead :=
  { id := 1, tenantId := 7, phoneNumber := "+100", firstName := some "Ana",
    lastName := none, email := none, status := some "new", stageId := none,
    assignedSellerId := none, source := some "whatsapp", metaLeadId := none,
    tags := [], createdAt := 0, updatedAt := 0,
    humanHandoffRequested := true, humanOverrideUntil := some 5000 }

/-- A database at clock 1000 where tenant 7 owns bot number +200 and the
override of (tenant 7, +100) is active (5000 is strictly in the
future). -/
def dbOv : Db :=
  { tenants := [{ id := 7, clinicName := "T", botPhoneNumber := "+200",
                  nicheType := some "crm_sales" }],
    leads := [leadOv], clients := [], patients := [], chatMessages := [],
    inboundLedger := [], professionals := [], users := [], agendaEvents := [],
    now := 1000, nextClientId := 1 }

/-- The same database with the override of (tenant 7, +100) already
expired (500 is strictly in the past at clock 1000). -/
def dbOvExpired : Db :=
  { dbOv with leads := [{ leadOv with humanOverrideUntil := some 500 }] }

/-- A fault-free environment whose agent capability answers a fixed
string. -/
def envOk : Env :=
  { failTenantLookup := false, failEnsureLead := false, failAppendUser := false,
    failHistory := false, failAgent := false, failAppendAssistant := false,
    agentReply := some "hola" }

/-- An inbound event from +100 to bot number +200. -/
def bodyOv : InboundBody :=
  { provider := some "x", eventId := some "e1", providerMessageId := some "m1",
    fromNumber := some "+100", text := some "hi", customerName := none,
    toNumber := some "+200", correlationId := some "c1" }

/-- C1.  The claim says chat_inbound skips the agent and answers ok with
send=false under an active override, and runs the agent after expiry.
The pipeline in main.py never reads human_handoff_requested or
human_override_until: evaluated on a database whose override for
(tenant 7, +100) is active and strictly unexpired, chat_inbound still
invokes the agent once, appends an assistant row and answers ok with
send=true; after expiry it behaves identically.  This theorem evaluates
the embedded pipeline at both inputs, exhibiting the divergence. -/
theorem claim1_override_not_consulted :
    (leadOv ∈ dbOv.leads ∧ leadOv.tenantId = 7 ∧ leadOv.phoneNumber = "+100" ∧
        leadOv.humanHandoffRequested = true ∧
        leadOv.humanOverrideUntil = some 5000 ∧ dbOv.now < 5000) ∧
      (chat_inbound envOk dbOv bodyOv).1 =
        ChatOutcome.resp
          { status := "ok", send := true, text := some "hola", errorDetail := none } ∧
      (chat_inbound envOk dbOv bodyOv).2.2.agentHistories.length = 1 ∧
      ((chat_inbound envOk dbOv bodyOv).2.1.chatMessages.filter
          (fun m => m.role = "assistant")).length = 1 ∧
      (chat_inbound envOk dbOvExpired bodyOv).1 =
        ChatOutcome.resp
          { status := "ok", send := true, text := some "hola", errorDetail := none } ∧
      (chat_inbound envOk dbOvExpired bodyOv).2.2.agentHistories.length = 1 := by
  decide

/-! ### C10: soft-deleted leads are hidden from listings, visible by id -/

/-- C10.  Every lead returned by list_leads, under every filter
combination, has a status other than deleted; get_lead applies no status
filter, so the lead found by (id, tenant) is returned whatever its
status, including deleted. -/
theorem claim10_soft_delete_visibility :
    (∀ (db : Db) (tid : Nat) (sf : Option String) (sel : Option Nat)
        (q : Option String) (lim off : Nat) (l : Lead),
        l ∈ list_leads db tid sf sel q lim off → l.status ≠ some "deleted") ∧
      (∀ (db : Db) (tid lid : Nat) (l : Lead),
        db.leads.find? (fun x => x.id = lid ∧ x.tenantId = tid) = some l →
          get_lead db tid lid = AdminResult.ok l) := by
  constructor
  · intro db tid sf sel q lim off l hl
    unfold list_leads at hl
    have h1 := List.take_subset _ _ hl
    have h2 := List.drop_subset _ _ h1
    rw [mem_sortByKeyAsc] at h2
    have h3 := List.of_mem_filter h2
    simp only [decide_eq_true_eq] at h3
    rcases h3.2.1 with hnone | hne
    · simp [hnone]
    · exact hne
  · intro db tid lid l h
    unfold get_lead
    rw [h]

/-- A deleted lead and a live lead of tenant 1 used to witness C10. -/
def leadDeleted : Lead :=
  { id := 9, tenantId := 1, phoneNumber := "+300", firstName := some "Bea",
    lastName := none, email := none, status := some "deleted", stageId := none,
    assignedSellerId := none, source := none, metaLeadId := none, tags := [],
    createdAt := 10, updatedAt := 10,
    humanHandoffRequested := false, humanOverrideUntil := none }

/-- A live lead of tenant 1 used to witness C10. -/
def leadLive : Lead :=
  { leadDeleted with id := 10, phoneNumber := "+301", status := some "new" }

/-- A database holding one deleted and one live lead of tenant 1. -/
def dbLeads : Db :=
  { tenants := [{ id := 1, clinicName := "T", botPhoneNumber := "+1",
                  nicheType := some "crm_sales" }],
    leads := [leadDeleted, leadLive], clients := [], patients := [],
    chatMessages := [], inboundLedger := [], professionals := [], users := [],
    agendaEvents := [], now := 100, nextClientId := 1 }

/-- Witness for C10: the live lead is listed and hence not deleted, and
get_lead retrieves the soft-deleted lead by id. -/
theorem claim10_soft_delete_visibility_witness :
    leadLive.status ≠ some "deleted" ∧
      get_lead dbLeads 1 9 = AdminResult.ok leadDeleted :=
  ⟨claim10_soft_delete_visibility.1 dbLeads 1 none none none 50 0 leadLive
      (by decide),
    claim10_soft_delete_visibility.2 dbLeads 1 9 leadDeleted (by decide)⟩

/-! ### C6: tenant resolution from the authenticated identity -/

/-- C6.  get_resolved_tenant_id returns the explicit tenant id of the
identity's professionals row when one exists; otherwise it returns the
first tenant in ascending id order (the member of least id).  The
function takes only the database and the decoded identity, never a
client-supplied tenant. -/
theorem claim6_identity_tenant_resolution (db : Db) (u : AuthUser)
    (hne : db.tenants ≠ []) :
    (∀ pr tid, db.professionals.find? (fun p => p.userId = u.userId) = some pr →
        pr.tenantId = some tid → get_resolved_tenant_id db u = tid) ∧
      (professionalTenantOf db u = none →
        (∃ t ∈ db.tenants, t.id = get_resolved_tenant_id db u) ∧
          ∀ t ∈ db.tenants, get_resolved_tenant_id db u ≤ t.id) := by
  constructor
  · intro pr tid hfind htid
    have hpt : professionalTenantOf db u = some tid := by
      unfold professionalTenantOf
      rw [hfind]
      exact htid
    unfold get_resolved_tenant_id
    rw [hpt]
  · intro hnone
    unfold get_resolved_tenant_id
    rw [hnone]
    cases hf : firstTenantIdAsc db with
    | none =>
      exfalso
      exact hne ((tenantsMinFold_eq_none db.tenants).mp hf)
    | some i =>
      unfold firstTenantIdAsc at hf
      exact firstTenantIdAsc_spec db.tenants i hf

/-- A professionals row binding account 42 to tenant 5. -/
def prRow : Professional :=
  { id := 1, tenantId := some 5, userId := 42, firstName := some "Pro",
    lastName := none }

/-- A two-tenant database with one staff binding, for the security
witnesses. -/
def dbSec : Db :=
  { tenants :=
      [{ id := 5, clinicName := "B", botPhoneNumber := "+5",
         nicheType := some "crm_sales" },
       { id := 3, clinicName := "A", botPhoneNumber := "+3",
         nicheType := some "crm_sales" }],
    leads := [], clients := [], patients := [], chatMessages := [],
    inboundLedger := [], professionals := [prRow], users := [],
    agendaEvents := [], now := 0, nextClientId := 1 }

/-- The staff-bound identity and an owner identity with no staff row. -/
def userPro : AuthUser := { userId := 42, role := "professional" }

/-- An owner-level identity with no professionals binding. -/
def userCeo : AuthUser := { userId := 99, role := "ceo" }

/-- Witness for C6: the staff identity resolves to its explicit tenant 5;
the unbound owner identity resolves to a member tenant of least id. -/
theorem claim6_identity_tenant_resolution_witness :
    get_resolved_tenant_id dbSec userPro = 5 ∧
      (∃ t ∈ dbSec.tenants, t.id = get_resolved_tenant_id dbSec userCeo) :=
  ⟨(claim6_identity_tenant_resolution dbSec userPro (by decide)).1 prRow 5
      (by decide) (by decide),
    ((claim6_identity_tenant_resolution dbSec userCeo (by decide)).2
        (by decide)).1⟩

/-! ### C2: deduplication of inbound events -/

/-- C2.  When the ledger already holds the deduplication key — provider
(defaulting to ycloud) and provider_message_id with the client event id
substituted when missing — chat_inbound answers duplicate send=false,
leaves the database completely unchanged (no contact creation, no
appended message, no ledger write) and never invokes the agent. -/
theorem claim2_duplicate_suppression (env : Env) (db : Db) (body : InboundBody)
    (hfrom : pyOr body.fromNumber "" ≠ "")
    (hfault : env.failTenantLookup = false)
    (hdup : ledgerHasKey db (pyOr body.provider "ycloud")
        (pyOr body.providerMessageId (pyOr body.eventId "")) = true) :
    chat_inbound env db body =
      (ChatOutcome.resp
          { status := "duplicate", send := false, text := none, errorDetail := none },
        db, Trace.empty) := by
  simp [chat_inbound, try_insert_inbound, hdup, hfault, hfrom]

/-- A database whose ledger already records (ycloud, m1). -/
def dbDup : Db :=
  { dbOv with
    inboundLedger :=
      [{ provider := "ycloud", providerMessageId := "m1", eventId := "e1",
         sender := "+100", state := "done", errorDetail := none }] }

/-- A redelivery of event m1 with no explicit provider (defaulted to
ycloud). -/
def bodyDup : InboundBody :=
  { provider := none, eventId := some "e1", providerMessageId := some "m1",
    fromNumber := some "+100", text := some "hi", customerName := none,
    toNumber := some "+200", correlationId := some "c1" }

/-- Witness for C2: the redelivery of (ycloud, m1) is answered duplicate
with the database untouched. -/
theorem claim2_duplicate_suppression_witness :
    chat_inbound envOk dbDup bodyDup =
      (ChatOutcome.resp
          { status := "duplicate", send := false, text := none, errorDetail := none },
        dbDup, Trace.empty) :=
  claim2_duplicate_suppression envOk dbDup bodyDup (by decide) (by decide)
    (by decide)

/-! ### C5: tenant resolution from the destination phone -/

/-- A single-tenant database (tenant 5 owning bot number +200) used to
exhibit the unlogged fallback. -/
def dbT5 : Db :=
  { dbOv with
    tenants := [{ id := 5, clinicName := "T", botPhoneNumber := "+200",
                  nicheType := some "crm_sales" }],
    leads := [] }

/-- An inbound event whose destination +999 matches no tenant. -/
def bodyTo999 : InboundBody :=
  { provider := some "x", eventId := some "e9", providerMessageId := some "m9",
    fromNumber := some "+100", text := some "hi", customerName := none,
    toNumber := some "+999", correlationId := some "c9" }

/-- C5 counterexample.  The claim calls the default-tenant fallback a
logged policy decision.  On a database where no tenant owns +999, the
pipeline resolves tenant 1, completes (the contact is created under
tenant 1), and its log trace is empty: nothing records the fallback, so
the claim as stated is false. -/
theorem claim5_fallback_unlogged_cex :
    dbT5.tenants ≠ [] ∧
      (∀ t ∈ dbT5.tenants, t.botPhoneNumber ≠ "+999") ∧
      resolveTenantId dbT5.tenants (some "+999") = 1 ∧
      (chat_inbound envOk dbT5 bodyTo999).1 =
        ChatOutcome.resp
          { status := "ok", send := true, text := some "hola", errorDetail := none } ∧
      (∃ l ∈ (chat_inbound envOk dbT5 bodyTo999).2.1.leads,
        l.phoneNumber = "+100" ∧ l.tenantId = 1) ∧
      (chat_inbound envOk dbT5 bodyTo999).2.2.logs = [] := by
  decide

/-- C5 as amended.  Tenant resolution from the destination phone returns
the id of the tenants row whose bot_phone_number equals to_number when
one exists, and otherwise silently falls back to the default tenant id 1:
no log line is emitted on any fault-free run of the pipeline, fallback
included. -/
theorem claim5_fallback_amended (tenants : List Tenant) (p : String)
    (hp : p ≠ "") :
    (∀ t, tenants.find? (fun t' => t'.botPhoneNumber = p) = some t →
        resolveTenantId tenants (some p) = t.id) ∧
      ((∀ t ∈ tenants, t.botPhoneNumber ≠ p) →
        resolveTenantId tenants (some p) = 1) ∧
      (∀ (env : Env) (db : Db) (body : InboundBody), faultFree env = true →
        (chat_inbound env db body).2.2.logs = []) := by
  refine ⟨?_, ?_, ?_⟩
  · intro t hfind
    show (if p = "" then 1
      else
        match tenants.find? (fun t => t.botPhoneNumber = p) with
        | some t => t.id
        | none => 1) = t.id
    rw [if_neg hp, hfind]
  · intro hno
    show (if p = "" then 1
      else
        match tenants.find? (fun t => t.botPhoneNumber = p) with
        | some t => t.id
        | none => 1) = 1
    rw [if_neg hp]
    have hnone : tenants.find? (fun t : Tenant => t.botPhoneNumber = p) = none := by
      rw [List.find?_eq_none]
      intro t ht
      simp [hno t ht]
    rw [hnone]
  · intro env db body hff
    simp only [faultFree, Bool.and_eq_true, Bool.not_eq_true'] at hff
    obtain ⟨⟨⟨⟨⟨h1, h2⟩, h3⟩, h4⟩, h5⟩, h6⟩ := hff
    simp only [chat_inbound, h1, h2, h3, h4, h5, h6, Bool.and_false,
      if_false, Bool.false_eq_true]
    split
    · rfl
    · split
      · rfl
      · rfl

/-- Witness for C5 as amended: tenant 5 is found for +200, +999 falls
back to 1, and a fault-free run logs nothing. -/
theorem claim5_fallback_amended_witness :
    resolveTenantId dbT5.tenants (some "+200") = 5 ∧
      resolveTenantId dbT5.tenants (some "+999") = 1 ∧
      (chat_inbound envOk dbT5 bodyTo999).2.2.logs = [] := by
  refine ⟨?_, ?_, ?_⟩
  · exact (claim5_fallback_amended dbT5.tenants "+200" (by decide)).1
      { id := 5, clinicName := "T", botPhoneNumber := "+200",
        nicheType := some "crm_sales" } (by decide)
  · exact (claim5_fallback_amended dbT5.tenants "+999" (by decide)).2.1
      (by decide)
  · exact (claim5_fallback_amended dbT5.tenants "+999" (by decide)).2.2
      envOk dbT5 bodyTo999 (by decide)

/-! ### C8: the human override control surface -/

/-- A single-tenant database with one lead of (tenant 1, +100) at clock
100, used by the override-control theorems. -/
def dbCtl : Db :=
  { tenants := [{ id := 1, clinicName := "T", botPhoneNumber := "+1",
                  nicheType := some "crm_sales" }],
    leads :=
      [{ leadOv with id := 2, tenantId := 1,
                     humanHandoffRequested := false, humanOverrideUntil := none }],
    clients := [], patients := [], chatMessages := [], inboundLedger := [],
    professionals := [], users := [], agendaEvents := [], now := 100,
    nextClientId := 1 }

/-- An activation payload carrying the explicit duration 0. -/
def payloadDur0 : HumanInterventionToggle :=
  { phone := "+100", tenantId := 1, activate := true, duration := some 0 }

/-- C8 counterexample.  The claim states expiry = now + duration whenever
a duration is specified, with the 24h default only for an unspecified
duration.  Activating with the explicit duration 0 (a falsy value for
Python `payload.duration or 86400000`) yields expiry now + 86400000, not
now + 0, so the claim as stated is false. -/
theorem claim8_duration_zero_cex :
    (toggle_human_intervention (fun s => s) dbCtl userCeo payloadDur0).1 =
        AdminResult.ok
          { status := "activated", phone := "+100", tenantId := 1,
            untilTs := some 86400100 } ∧
      (86400100 : Int) ≠ dbCtl.now + 0 := by
  decide

/-- C8 as amended.  With the target tenant in the caller's allowed set:
activation sets human_handoff_requested on every matching lead row and
human_override_until = now + effectiveDuration, where effectiveDuration
is the given duration except that a missing, null or zero duration falls
back to 86400000 ms; re-activation overwrites (resets) any previous
expiry, since the update is unconditional on the prior row state;
deactivation and remove-silence clear both columns unconditionally; each
mutation emits exactly one HUMAN_OVERRIDE_CHANGED event carrying the
contact phone, the tenant, the enabled flag and (on activation) the
until timestamp; the responses are activated (with until), deactivated,
and removed. -/
theorem claim8_override_control_amended (norm : String → String) (db : Db)
    (u : AuthUser) (payload : HumanInterventionToggle)
    (hallow : payload.tenantId ∈ get_allowed_tenant_ids db u) :
    (payload.activate = true →
        (toggle_human_intervention norm db u payload).1 =
            AdminResult.ok
              { status := "activated", phone := payload.phone,
                tenantId := payload.tenantId,
                untilTs := some (db.now + effectiveDuration payload.duration) } ∧
          (∀ l' ∈ (toggle_human_intervention norm db u payload).2.1.leads,
            overrideRowMatch norm payload.phone payload.tenantId l' = true →
              l'.humanHandoffRequested = true ∧
                l'.humanOverrideUntil =
                  some (db.now + effectiveDuration payload.duration)) ∧
          (toggle_human_intervention norm db u payload).2.2 =
            [{ phoneNumber := payload.phone, tenantId := payload.tenantId,
               enabled := true,
               untilTs := some (db.now + effectiveDuration payload.duration) }]) ∧
      (payload.activate = false →
        (toggle_human_intervention norm db u payload).1 =
            AdminResult.ok
              { status := "deactivated", phone := payload.phone,
                tenantId := payload.tenantId, untilTs := none } ∧
          (∀ l' ∈ (toggle_human_intervention norm db u payload).2.1.leads,
            overrideRowMatch norm payload.phone payload.tenantId l' = true →
              l'.humanHandoffRequested = false ∧ l'.humanOverrideUntil = none) ∧
          (toggle_human_intervention norm db u payload).2.2 =
            [{ phoneNumber := payload.phone, tenantId := payload.tenantId,
               enabled := false, untilTs := none }]) ∧
      (effectiveDuration none = 86400000 ∧ effectiveDuration (some 0) = 86400000 ∧
        ∀ d : Int, d ≠ 0 → effectiveDuration (some d) = d) ∧
      ((remove_silence norm db u payload.phone payload.tenantId).1 =
          AdminResult.ok
            { status := "removed", phone := payload.phone,
              tenantId := payload.tenantId, untilTs := none } ∧
        (∀ l' ∈ (remove_silence norm db u payload.phone payload.tenantId).2.1.leads,
          overrideRowMatch norm payload.phone payload.tenantId l' = true →
            l'.humanHandoffRequested = false ∧ l'.humanOverrideUntil = none) ∧
        (remove_silence norm db u payload.phone payload.tenantId).2.2 =
          [{ phoneNumber := payload.phone, tenantId := payload.tenantId,
             enabled := false, untilTs := none }]) := by
  refine ⟨?_, ?_, ?_, ?_⟩
  · intro hact
    unfold toggle_human_intervention
    rw [if_pos hallow, if_pos hact]
    refine ⟨rfl, ?_, rfl⟩
    intro l' hl' hm
    simp only [List.mem_map] at hl'
    obtain ⟨l, _, rfl⟩ := hl'
    by_cases hml : overrideRowMatch norm payload.phone payload.tenantId l = true
    · rw [if_pos hml]
      exact ⟨rfl, rfl⟩
    · rw [if_neg hml] at hm
      exact absurd hm hml
  · intro hact
    unfold toggle_human_intervention
    rw [if_pos hallow, if_neg (by simp [hact])]
    refine ⟨rfl, ?_, rfl⟩
    intro l' hl' hm
    simp only [List.mem_map] at hl'
    obtain ⟨l, _, rfl⟩ := hl'
    by_cases hml : overrideRowMatch norm payload.phone payload.tenantId l = true
    · rw [if_pos hml]
      exact ⟨rfl, rfl⟩
    · rw [if_neg hml] at hm
      exact absurd hm hml
  · refine ⟨rfl, rfl, ?_⟩
    intro d hd
    simp [effectiveDuration, hd]
  · unfold remove_silence
    rw [if_pos hallow]
    refine ⟨rfl, ?_, rfl⟩
    intro l' hl' hm
    simp only [List.mem_map] at hl'
    obtain ⟨l, _, rfl⟩ := hl'
    by_cases hml : overrideRowMatch norm payload.phone payload.tenantId l = true
    · rw [if_pos hml]
      exact ⟨rfl, rfl⟩
    · rw [if_neg hml] at hm
      exact absurd hm hml

/-- An activation payload with no duration (the 24h default applies). -/
def payloadAct : HumanInterventionToggle :=
  { phone := "+100", tenantId := 1, activate := true, duration := none }

/-- Witness for C8 as amended: activation on the concrete database
answers activated with until = 100 + 86400000 and flags the matching
lead; remove-silence answers removed. -/
theorem claim8_override_control_amended_witness :
    (toggle_human_intervention (fun s => s) dbCtl userCeo payloadAct).1 =
        AdminResult.ok
          { status := "activated", phone := "+100", tenantId := 1,
            untilTs := some 86400100 } ∧
      (remove_silence (fun s => s) dbCtl userCeo "+100" 1).1 =
        AdminResult.ok
          { status := "removed", phone := "+100", tenantId := 1,
            untilTs := none } := by
  have h := claim8_override_control_amended (fun s => s) dbCtl userCeo payloadAct
    (by decide)
  exact ⟨(h.1 rfl).1, h.2.2.2.1⟩

/-! ### C9: lead-to-client conversion is not atomic -/

/-- A lead of tenant 1 awaiting conversion. -/
def leadConv : Lead :=
  { id := 9, tenantId := 1, phoneNumber := "+300", firstName := some "Bea",
    lastName := none, email := none, status := some "new", stageId := none,
    assignedSellerId := none, source := none, metaLeadId := none, tags := [],
    createdAt := 10, updatedAt := 10,
    humanHandoffRequested := false, humanOverrideUntil := none }

/-- A database with one convertible lead and no clients. -/
def dbConv : Db :=
  { tenants := [{ id := 1, clinicName := "T", botPhoneNumber := "+1",
                  nicheType := some "crm_sales" }],
    leads := [leadConv], clients := [], patients := [], chatMessages := [],
    inboundLedger := [], professionals := [], users := [], agendaEvents := [],
    now := 50, nextClientId := 1 }

/-- An environment where the client INSERT succeeds and the lead UPDATE
raises. -/
def envFailUpd : CrmEnv := { failClientInsert := false, failLeadUpdate := true }

/-- C9 counterexample.  The claim says conversion either creates the
client row and sets the lead to closed_won, or leaves both tables
unchanged.  The handler runs the INSERT and the UPDATE as two separate
statements with no transaction: when the UPDATE raises, the exception
propagates (no standard rejection) and the final state has the client
created while the lead still has its old status — neither branch of the
claimed alternative. -/
theorem claim9_convert_not_atomic_cex :
    (convert_lead_to_client envFailUpd dbConv 1 9).1 =
        CrmOutcome.raised "lead update failed" ∧
      (∃ c ∈ (convert_lead_to_client envFailUpd dbConv 1 9).2.clients,
        c.phoneNumber = "+300" ∧ c.tenantId = 1) ∧
      (∃ l ∈ (convert_lead_to_client envFailUpd dbConv 1 9).2.leads,
        l.id = 9 ∧ l.status = some "new" ∧ l.status ≠ some "closed_won") := by
  decide

/-- C9 as amended.  The conversion rejects with 404 (lead missing) or 400
(client already exists) leaving the database unchanged, and its two
mutating statements behave as follows: a failure of the client INSERT
leaves the database unchanged; on a successful INSERT the client row is
appended with the lead's phone, and only the second, separate UPDATE
statement sets the lead status to closed_won — a failure between the two
statements leaves the client created and the lead status untouched
(there is no transaction around the pair). -/
theorem claim9_convert_behavior_amended (env : CrmEnv) (db : Db)
    (tid leadId : Nat) (lead : Lead)
    (hlead : db.leads.find? (fun l => l.id = leadId ∧ l.tenantId = tid) = some lead)
    (hnocli :
      db.clients.find?
          (fun c => c.tenantId = tid ∧ c.phoneNumber = lead.phoneNumber) = none) :
    (env.failClientInsert = true →
        convert_lead_to_client env db tid leadId =
          (CrmOutcome.raised "client insert failed", db)) ∧
      (env.failClientInsert = false → env.failLeadUpdate = true →
        (convert_lead_to_client env db tid leadId).1 =
            CrmOutcome.raised "lead update failed" ∧
          (∃ c, (convert_lead_to_client env db tid leadId).2.clients =
              db.clients ++ [c] ∧ c.phoneNumber = lead.phoneNumber ∧
              c.status = some "active") ∧
          (convert_lead_to_client env db tid leadId).2.leads = db.leads) ∧
      (env.failClientInsert = false → env.failLeadUpdate = false →
        (∃ c, (convert_lead_to_client env db tid leadId).1 = CrmOutcome.ok c ∧
            c.phoneNumber = lead.phoneNumber ∧ c.tenantId = tid ∧
            (convert_lead_to_client env db tid leadId).2.clients =
              db.clients ++ [c]) ∧
          (∀ l' ∈ (convert_lead_to_client env db tid leadId).2.leads,
            l'.id = leadId ∧ l'.tenantId = tid → l'.status = some "closed_won")) ∧
      (∀ (db' : Db),
        db'.leads.find? (fun l => l.id = leadId ∧ l.tenantId = tid) = none →
          convert_lead_to_client env db' tid leadId =
            (CrmOutcome.httpError 404 "Lead not found", db')) ∧
      (∀ (db' : Db) (lead' : Lead) (c : Client),
        db'.leads.find? (fun l => l.id = leadId ∧ l.tenantId = tid) = some lead' →
          db'.clients.find?
              (fun c => c.tenantId = tid ∧ c.phoneNumber = lead'.phoneNumber) =
            some c →
          convert_lead_to_client env db' tid leadId =
            (CrmOutcome.httpError 400 "client with that phone already exists", db')) := by
  refine ⟨?_, ?_, ?_, ?_, ?_⟩
  · intro hci
    simp only [convert_lead_to_client, hlead, hnocli, hci, if_true]
  · intro hci hlu
    simp only [convert_lead_to_client, hlead, hnocli, hci, hlu, if_true,
      Bool.false_eq_true, if_false]
    exact ⟨by trivial, ⟨_, by trivial, by trivial, by trivial⟩, by trivial⟩
  · intro hci hlu
    simp only [convert_lead_to_client, hlead, hnocli, hci, hlu,
      Bool.false_eq_true, if_false]
    refine ⟨⟨_, by trivial, by trivial, by trivial, by trivial⟩, ?_⟩
    intro l' hl' hmatch
    simp only [List.mem_map] at hl'
    obtain ⟨l, _, rfl⟩ := hl'
    by_cases hml : (l.id = leadId ∧ l.tenantId = tid)
    · rw [if_pos hml]
    · rw [if_neg hml] at hmatch ⊢
      exact absurd hmatch hml
  · intro db' hnone
    simp only [convert_lead_to_client, hnone]
  · intro db' lead' c hfound hcli
    simp only [convert_lead_to_client, hfound, hcli]

/-- Witness for C9 as amended: on the concrete database the fault-free
conversion returns the created client and marks the lead closed_won. -/
theorem claim9_convert_behavior_amended_witness :
    (∃ c, (convert_lead_to_client { failClientInsert := false, failLeadUpdate := false }
          dbConv 1 9).1 = CrmOutcome.ok c ∧
        c.phoneNumber = leadConv.phoneNumber ∧ c.tenantId = 1 ∧
        (convert_lead_to_client { failClientInsert := false, failLeadUpdate := false }
            dbConv 1 9).2.clients = dbConv.clients ++ [c]) := by
  have h := claim9_convert_behavior_amended
    { failClientInsert := false, failLeadUpdate := false } dbConv 1 9 leadConv
    (by decide) (by decide)
  exact (h.2.2.1 rfl rfl).1

/-! ### Projection lemmas used to reduce the pipeline -/

@[simp]
theorem ensure_lead_exists_chatMessages (db : Db) (tenantId : Nat) (phone : String)
    (customerName : Option String) (source : String) :
    (ensure_lead_exists db tenantId phone customerName source).chatMessages =
      db.chatMessages := by
  unfold ensure_lead_exists
  split <;> rfl

@[simp]
theorem ensure_lead_exists_now (db : Db) (tenantId : Nat) (phone : String)
    (customerName : Option String) (source : String) :
    (ensure_lead_exists db tenantId phone customerName source).now = db.now := by
  unfold ensure_lead_exists
  split <;> rfl

@[simp]
theorem ensure_lead_exists_tenants (db : Db) (tenantId : Nat) (phone : String)
    (customerName : Option String) (source : String) :
    (ensure_lead_exists db tenantId phone customerName source).tenants =
      db.tenants := by
  unfold ensure_lead_exists
  split <;> rfl

@[simp]
theorem ensure_lead_exists_inboundLedger (db : Db) (tenantId : Nat) (phone : String)
    (customerName : Option String) (source : String) :
    (ensure_lead_exists db tenantId phone customerName source).inboundLedger =
      db.inboundLedger := by
  unfold ensure_lead_exists
  split <;> rfl

@[simp]
theorem setLedgerState_chatMessages (db : Db) (provider pmid newState : String)
    (err : Option String) :
    (setLedgerState db provider pmid newState err).chatMessages = db.chatMessages :=
  rfl

@[simp]
theorem setLedgerState_now (db : Db) (provider pmid newState : String)
    (err : Option String) :
    (setLedgerState db provider pmid newState err).now = db.now :=
  rfl

@[simp]
theorem setLedgerState_tenants (db : Db) (provider pmid newState : String)
    (err : Option String) :
    (setLedgerState db provider pmid newState err).tenants = db.tenants :=
  rfl

@[simp]
theorem append_chat_message_chatMessages (db : Db)
    (fromNumber role content correlationId : String) (tenantId : Nat) :
    (append_chat_message db fromNumber role content correlationId tenantId).chatMessages =
      db.chatMessages ++
        [{ tenantId := tenantId, fromNumber := fromNumber, role := role,
           content := content, correlationId := correlationId,
           createdAt := db.now }] :=
  rfl

@[simp]
theorem append_chat_message_now (db : Db)
    (fromNumber role content correlationId : String) (tenantId : Nat) :
    (append_chat_message db fromNumber role content correlationId tenantId).now =
      db.now + 1 :=
  rfl

@[simp]
theorem append_chat_message_inboundLedger (db : Db)
    (fromNumber role content correlationId : String) (tenantId : Nat) :
    (append_chat_message db fromNumber role content correlationId tenantId).inboundLedger =
      db.inboundLedger :=
  rfl

/-! ### C4: the agent context never contains the current turn twice -/

/-- The chat_messages row appended for the current user turn of an
inbound event processed against `db` (the storage clock at the append is
still db.now: no earlier pipeline step advances it). -/
def currentTurnRow (db : Db) (body : InboundBody) : ChatMessage :=
  { tenantId := resolveTenantId db.tenants body.toNumber,
    fromNumber := pyOr body.fromNumber "", role := "user",
    content := pyOr body.text "", correlationId := pyOr body.correlationId "",
    createdAt := db.now }

/-- The history window computed from the store right after the current
turn was appended contains only strictly older rows and never the
current turn itself. -/
theorem historyGiven_spec (msgs : List ChatMessage) (tenantId : Nat)
    (fromNumber text : String) (t : Int) (cur : ChatMessage)
    (hct : cur.tenantId = tenantId) (hcf : cur.fromNumber = fromNumber)
    (hcc : cur.content = text) (hcr : cur.role = "user") (hca : cur.createdAt = t)
    (hclock : ∀ m ∈ msgs, m.createdAt < t) :
    (∀ m ∈ dropCurrentTurn text
        (lastN 15
          ((msgs ++ [cur]).filter
            (fun m => m.tenantId = tenantId ∧ m.fromNumber = fromNumber))),
        m ∈ msgs ∧ m.createdAt < t) ∧
      cur ∉
        dropCurrentTurn text
          (lastN 15
            ((msgs ++ [cur]).filter
              (fun m => m.tenantId = tenantId ∧ m.fromNumber = fromNumber))) := by
  have hfil :
      (msgs ++ [cur]).filter
          (fun m => m.tenantId = tenantId ∧ m.fromNumber = fromNumber) =
        msgs.filter (fun m => m.tenantId = tenantId ∧ m.fromNumber = fromNumber) ++
          [cur] := by
    rw [List.filter_append]
    simp [List.filter, hct, hcf]
  rw [hfil, show (15 : Nat) = 14 + 1 from rfl, lastN_concat,
    dropCurrentTurn_concat text _ cur hcc hcr]
  have hmem :
      ∀ m ∈ lastN 14
          (msgs.filter (fun m => m.tenantId = tenantId ∧ m.fromNumber = fromNumber)),
        m ∈ msgs ∧ m.createdAt < t := by
    intro m hm
    have h1 := lastN_subset _ _ _ hm
    have h2 := List.mem_filter.mp h1
    exact ⟨h2.1, hclock m h2.1⟩
  refine ⟨hmem, ?_⟩
  intro hcur
  have := (hmem _ hcur).2
  rw [hca] at this
  simp at this

/-- C4.  On a fault-free, non-duplicate run, chat_inbound invokes the
agent exactly once; the current turn text is the input, and the history
window handed over consists only of rows that already existed before the
append (all strictly older than the storage clock), so it never contains
the just-appended current-turn row — which is nonetheless present once
in the final conversation store. -/
theorem claim4_history_excludes_current_turn (env : Env) (db : Db)
    (body : InboundBody)
    (hfrom : pyOr body.fromNumber "" ≠ "")
    (hff : faultFree env = true)
    (hnew : ledgerHasKey db (pyOr body.provider "ycloud")
        (pyOr body.providerMessageId (pyOr body.eventId "")) = false)
    (hclock : ∀ m ∈ db.chatMessages, m.createdAt < db.now) :
    ∃ h,
      (chat_inbound env db body).2.2.agentHistories = [h] ∧
        (chat_inbound env db body).2.2.agentInputs = [pyOr body.text ""] ∧
        (∀ m ∈ h, m ∈ db.chatMessages ∧ m.createdAt < db.now) ∧
        currentTurnRow db body ∉ h ∧
        currentTurnRow db body ∈ (chat_inbound env db body).2.1.chatMessages := by
  simp only [faultFree, Bool.and_eq_true, Bool.not_eq_true'] at hff
  obtain ⟨⟨⟨⟨⟨h1, h2⟩, h3⟩, h4⟩, h5⟩, h6⟩ := hff
  simp only [chat_inbound, try_insert_inbound, hnew, h1, h2, h3, h4, h5, h6,
    Bool.and_false, Bool.false_eq_true, if_false, if_neg hfrom,
    get_chat_history, ensure_lead_exists_chatMessages, ensure_lead_exists_now,
    ensure_lead_exists_tenants, setLedgerState_chatMessages, setLedgerState_now,
    setLedgerState_tenants, append_chat_message_chatMessages,
    append_chat_message_now, Bool.not_true, Bool.not_false]
  refine ⟨_, rfl, by trivial, ?_, ?_, ?_⟩
  · exact (historyGiven_spec db.chatMessages
        (resolveTenantId db.tenants body.toNumber) (pyOr body.fromNumber "")
        (pyOr body.text "") db.now (currentTurnRow db body) rfl rfl rfl rfl rfl
        hclock).1
  · exact (historyGiven_spec db.chatMessages
        (resolveTenantId db.tenants body.toNumber) (pyOr body.fromNumber "")
        (pyOr body.text "") db.now (currentTurnRow db body) rfl rfl rfl rfl rfl
        hclock).2
  · simp [currentTurnRow]

/-- The override database with one earlier stored message of the contact
(timestamp 10, strictly before the clock 1000). -/
def dbPrev : Db :=
  { dbOv with
    chatMessages :=
      [{ tenantId := 7, fromNumber := "+100", role := "user",
         content := "hola antes", correlationId := "c0", createdAt := 10 }] }

/-- Witness for C4: on the concrete override database (which already
holds one older message of the contact) the agent receives that previous
turn and not the current one. -/
theorem claim4_history_excludes_current_turn_witness :
    ∃ h,
      (chat_inbound envOk dbPrev bodyOv).2.2.agentHistories = [h] ∧
        (chat_inbound envOk dbPrev bodyOv).2.2.agentInputs = ["hi"] ∧
        (∀ m ∈ h, m ∈ dbPrev.chatMessages ∧ m.createdAt < dbPrev.now) ∧
        currentTurnRow dbPrev bodyOv ∉ h ∧
        currentTurnRow dbPrev bodyOv ∈
          (chat_inbound envOk dbPrev bodyOv).2.1.chatMessages :=
  claim4_history_excludes_current_turn envOk dbPrev bodyOv (by decide) (by decide)
    (by decide) (by decide)

/-! ### C3: failure containment inside the try block -/

/-- An environment whose tenants lookup raises. -/
def envTLFail : Env := { envOk with failTenantLookup := true }

/-- C3 counterexample.  The claim covers tenant resolution (step 3) among
the failures caught inside chat_inbound.  The code performs the tenants
lookup before the ledger insert and outside the try block: when that
lookup raises, the exception propagates (a 5xx), no error response is
produced and no ledger row is marked failed — the database is completely
untouched. -/
theorem claim3_tenant_failure_propagates_cex :
    (chat_inbound envTLFail dbOv bodyOv).1 =
        ChatOutcome.raised "tenant lookup failed" ∧
      (chat_inbound envTLFail dbOv bodyOv).2.1 = dbOv ∧
      (chat_inbound envTLFail dbOv bodyOv).2.2 = Trace.empty := by
  decide

/-- C3 as amended.  For a new (non-duplicate) event, an unhandled failure
in any step from contact creation through the assistant append (steps
4 to 9: ensure lead, user append, history read, agent invocation,
assistant append) is caught inside chat_inbound: the ledger row of the
event is transitioned to failed with the error detail and the response
is status error, send=false — no exception propagates.  A failure of
tenant resolution (step 3) is outside the try block and propagates. -/
theorem claim3_failure_containment_amended (env : Env) (db : Db)
    (body : InboundBody)
    (hfrom : pyOr body.fromNumber "" ≠ "")
    (htl : env.failTenantLookup = false)
    (hnew : ledgerHasKey db (pyOr body.provider "ycloud")
        (pyOr body.providerMessageId (pyOr body.eventId "")) = false)
    (hfail : env.failEnsureLead = true ∨ env.failAppendUser = true ∨
      env.failHistory = true ∨ env.failAgent = true ∨
      env.failAppendAssistant = true) :
    ∃ e,
      (chat_inbound env db body).1 =
          ChatOutcome.resp
            { status := "error", send := false, text := none,
              errorDetail := some e } ∧
        ledgerStateOf (chat_inbound env db body).2.1 (pyOr body.provider "ycloud")
            (pyOr body.providerMessageId (pyOr body.eventId "")) =
          some "failed" := by
  by_cases hA : env.failEnsureLead = true
  · refine ⟨"ensure lead failed", ?_, ?_⟩ <;>
      simp [chat_inbound, try_insert_inbound, hnew, htl, hfrom, hA,
        ledgerStateOf, setLedgerState]
  · have hA' : env.failEnsureLead = false := by simpa using hA
    by_cases hB : env.failAppendUser = true
    · refine ⟨"append user failed", ?_, ?_⟩ <;>
        simp [chat_inbound, try_insert_inbound, hnew, htl, hfrom, hA', hB,
          ledgerStateOf, setLedgerState]
    · have hB' : env.failAppendUser = false := by simpa using hB
      by_cases hC : env.failHistory = true
      · refine ⟨"history read failed", ?_, ?_⟩ <;>
          simp [chat_inbound, try_insert_inbound, hnew, htl, hfrom, hA', hB', hC,
            ledgerStateOf, setLedgerState]
      · have hC' : env.failHistory = false := by simpa using hC
        by_cases hD : env.failAgent = true
        · refine ⟨"agent invocation failed", ?_, ?_⟩ <;>
            simp [chat_inbound, try_insert_inbound, hnew, htl, hfrom, hA', hB',
              hC', hD, ledgerStateOf, setLedgerState]
        · have hD' : env.failAgent = false := by simpa using hD
          by_cases hE : env.failAppendAssistant = true
          · refine ⟨"append assistant failed", ?_, ?_⟩ <;>
              simp [chat_inbound, try_insert_inbound, hnew, htl, hfrom, hA', hB',
                hC', hD', hE, ledgerStateOf, setLedgerState]
          · have hE' : env.failAppendAssistant = false := by simpa using hE
            rcases hfail with h | h | h | h | h <;> simp_all

/-- An environment whose agent invocation raises. -/
def envAgentFail : Env := { envOk with failAgent := true }

/-- Witness for C3 as amended: an agent failure on the concrete database
yields the error response and the failed ledger row. -/
theorem claim3_failure_containment_amended_witness :
    ∃ e,
      (chat_inbound envAgentFail dbOv bodyOv).1 =
          ChatOutcome.resp
            { status := "error", send := false, text := none,
              errorDetail := some e } ∧
        ledgerStateOf (chat_inbound envAgentFail dbOv bodyOv).2.1 "x" "m1" =
          some "failed" :=
  claim3_failure_containment_amended envAgentFail dbOv bodyOv (by decide)
    (by decide) (by decide) (by simp [envAgentFail, envOk])

/-! ### C7: allowed tenants and tenant isolation of the admin surface -/

/-- Every crm chat-session row originates from a leads row of the target
tenant with the same phone. -/
theorem crmSessions_provenance (db : Db) (tid : Nat) (r : ChatSession)
    (hr : r ∈ crmSessions db tid) :
    ∃ l ∈ db.leads, l.tenantId = tid ∧ l.phoneNumber = r.phoneNumber := by
  unfold crmSessions at hr
  obtain ⟨p, _, hf⟩ := List.mem_filterMap.mp hr
  cases hfind :
      (db.leads.filter (fun l => l.tenantId = tid)).find?
        (fun l => l.phoneNumber = p) with
  | none => rw [hfind] at hf; exact absurd hf (by simp)
  | some l =>
    rw [hfind] at hf
    have hl := List.mem_of_find?_eq_some hfind
    have hlf := List.mem_filter.mp hl
    have hphone : l.phoneNumber = p := by
      have := List.find?_some hfind
      simpa using this
    refine ⟨l, hlf.1, by simpa using hlf.2, ?_⟩
    have : r.phoneNumber = p := by
      simp only [Option.some.injEq] at hf
      rw [← hf]
    rw [this, hphone]

/-- Every dental chat-session row originates from a patients row of the
target tenant with the same phone. -/
theorem dentalSessions_provenance (db : Db) (tid : Nat) (r : ChatSession)
    (hr : r ∈ dentalSessions db tid) :
    ∃ q ∈ db.patients, q.tenantId = tid ∧ q.phoneNumber = r.phoneNumber := by
  unfold dentalSessions at hr
  obtain ⟨p, _, hf⟩ := List.mem_filterMap.mp hr
  cases hfind :
      (db.patients.filter (fun q => q.tenantId = tid)).find?
        (fun q => q.phoneNumber = p) with
  | none => rw [hfind] at hf; exact absurd hf (by simp)
  | some q =>
    rw [hfind] at hf
    have hq := List.mem_of_find?_eq_some hfind
    have hqf := List.mem_filter.mp hq
    have hphone : q.phoneNumber = p := by
      have := List.find?_some hfind
      simpa using this
    refine ⟨q, hqf.1, by simpa using hqf.2, ?_⟩
    have : r.phoneNumber = p := by
      simp only [Option.some.injEq] at hf
      rw [← hf]
    rw [this, hphone]

/-- C7.  The allowed-tenants operation yields every tenant id for the ceo
role and exactly the singleton resolved tenant for scoped roles; the
chat-session, chat-message, seller-analytics and agenda listings reject
a target tenant outside the allowed set with 403; and the rows each of
them returns belong to the (allowed) target tenant only — for the
analytics aggregate, the output is unchanged when every other tenant's
leads are removed from the database. -/
theorem claim7_tenant_isolation (db : Db) (u : AuthUser)
    (hne : db.tenants ≠ []) :
    (u.role = "ceo" →
        ∀ i : Nat, i ∈ get_allowed_tenant_ids db u ↔ ∃ t ∈ db.tenants, t.id = i) ∧
      (u.role ≠ "ceo" →
        get_allowed_tenant_ids db u = [get_resolved_tenant_id db u]) ∧
      (∀ tid, tid ∉ get_allowed_tenant_ids db u →
        get_chat_sessions db u tid = AdminResult.httpError 403 ∧
          (∀ phone lim off,
            get_chat_messages db u phone tid lim off = AdminResult.httpError 403) ∧
          (∀ pid s e,
            get_seller_analytics db u pid tid s e = AdminResult.httpError 403)) ∧
      (get_resolved_tenant_id db u ∉ get_allowed_tenant_ids db u →
        ∀ s e sf, list_agenda_events db u s e sf = AdminResult.httpError 403) ∧
      (∀ tid rows, get_chat_sessions db u tid = AdminResult.ok rows →
        tid ∈ get_allowed_tenant_ids db u ∧
          ∀ r ∈ rows,
            (∃ l ∈ db.leads, l.tenantId = tid ∧ l.phoneNumber = r.phoneNumber) ∨
              ∃ q ∈ db.patients, q.tenantId = tid ∧ q.phoneNumber = r.phoneNumber) ∧
      (∀ phone tid lim off rows,
        get_chat_messages db u phone tid lim off = AdminResult.ok rows →
          tid ∈ get_allowed_tenant_ids db u ∧ ∀ m ∈ rows, m.tenantId = tid) ∧
      (∀ pid tid s e,
        get_seller_analytics db u pid tid s e =
          get_seller_analytics
            { db with leads := db.leads.filter (fun l => l.tenantId = tid) } u pid
            tid s e) ∧
      (∀ s e sf rows, list_agenda_events db u s e sf = AdminResult.ok rows →
        get_resolved_tenant_id db u ∈ get_allowed_tenant_ids db u ∧
          ∀ ev ∈ rows, ev.tenantId = get_resolved_tenant_id db u) := by
  refine ⟨?_, ?_, ?_, ?_, ?_, ?_, ?_, ?_⟩
  · -- ceo: the allowed set is exactly the tenant ids
    intro hceo i
    unfold get_allowed_tenant_ids
    rw [if_pos hceo]
    have hmapne : db.tenants.map (fun t => t.id) ≠ [] := by
      intro hnil
      exact hne (List.map_eq_nil_iff.mp hnil)
    have hsne :
        sortByKeyAsc (fun i => Int.ofNat i) (db.tenants.map (fun t => t.id)) ≠ [] := by
      intro hemp
      cases hm : db.tenants.map (fun t => t.id) with
      | nil => exact hmapne hm
      | cons a as =>
        have ha : a ∈ sortByKeyAsc (fun i => Int.ofNat i)
            (db.tenants.map (fun t => t.id)) := by
          rw [mem_sortByKeyAsc, hm]
          simp
        rw [hemp] at ha
        simp at ha
    rw [if_neg (by simpa [List.isEmpty_iff] using hsne)]
    rw [mem_sortByKeyAsc, List.mem_map]
  · -- scoped: the allowed set is the singleton resolved tenant
    intro hrole
    unfold get_allowed_tenant_ids get_resolved_tenant_id
    rw [if_neg hrole]
    cases hpt : professionalTenantOf db u with
    | some tid => rfl
    | none =>
      cases hf : firstTenantIdAsc db with
      | some i => rfl
      | none => rfl
  · -- guards of the three tenant-parametrized listings
    intro tid hnot
    refine ⟨?_, ?_, ?_⟩
    · unfold get_chat_sessions
      rw [if_neg hnot]
    · intro phone lim off
      unfold get_chat_messages
      rw [if_neg hnot]
    · intro pid s e
      unfold get_seller_analytics
      rw [if_neg hnot]
  · -- guard of the agenda listing
    intro hnot s e sf
    unfold list_agenda_events
    rw [if_neg hnot]
  · -- session rows belong to the target tenant
    intro tid rows hok
    by_cases hmem : tid ∈ get_allowed_tenant_ids db u
    · refine ⟨hmem, ?_⟩
      unfold get_chat_sessions at hok
      rw [if_pos hmem] at hok
      simp only [AdminResult.ok.injEq] at hok
      intro r hr
      rw [← hok] at hr
      by_cases hd : nicheOf db tid = "dental"
      · rw [if_pos hd] at hr
        exact Or.inr (dentalSessions_provenance db tid r hr)
      · rw [if_neg hd] at hr
        by_cases hc : nicheOf db tid = "crm_sales"
        · rw [if_pos hc] at hr
          exact Or.inl (crmSessions_provenance db tid r hr)
        · rw [if_neg hc] at hr
          simp at hr
    · unfold get_chat_sessions at hok
      rw [if_neg hmem] at hok
      exact absurd hok (by simp)
  · -- message rows belong to the target tenant
    intro phone tid lim off rows hok
    by_cases hmem : tid ∈ get_allowed_tenant_ids db u
    · refine ⟨hmem, ?_⟩
      unfold get_chat_messages at hok
      rw [if_pos hmem] at hok
      simp only [AdminResult.ok.injEq] at hok
      intro m hm
      rw [← hok] at hm
      rw [mem_sortByKeyAsc] at hm
      have h1 := List.take_subset _ _ hm
      have h2 := List.drop_subset _ _ h1
      rw [mem_sortByKeyAsc] at h2
      have h3 := List.mem_filter.mp h2
      have := h3.2
      simp only [decide_eq_true_eq] at this
      exact this.2
    · unfold get_chat_messages at hok
      rw [if_neg hmem] at hok
      exact absurd hok (by simp)
  · -- the analytics aggregate reads only the target tenant's leads
    intro pid tid s e
    have hall :
        get_allowed_tenant_ids
            { db with leads := db.leads.filter (fun l => l.tenantId = tid) } u =
          get_allowed_tenant_ids db u := rfl
    have hseller :
        sellerRowFor
            { db with leads := db.leads.filter (fun l => l.tenantId = tid) } pid
            tid = sellerRowFor db pid tid := rfl
    by_cases hmem : tid ∈ get_allowed_tenant_ids db u
    · cases hs : sellerRowFor db pid tid with
      | none =>
        simp only [get_seller_analytics, hall, hseller, hs, if_pos hmem]
      | some p =>
        have hfil :
            (db.leads.filter (fun l => l.tenantId = tid)).filter
                (fun l =>
                  l.tenantId = tid ∧ l.assignedSellerId = some p.userId ∧
                    s ≤ l.createdAt ∧ l.createdAt ≤ e) =
              db.leads.filter
                (fun l =>
                  l.tenantId = tid ∧ l.assignedSellerId = some p.userId ∧
                    s ≤ l.createdAt ∧ l.createdAt ≤ e) := by
          rw [List.filter_filter]
          apply List.filter_congr
          intro x _
          by_cases hx : x.tenantId = tid
          · simp [hx]
          · simp [hx]
        simp only [get_seller_analytics, hall, hseller, hs, if_pos hmem, hfil]
    · simp only [get_seller_analytics, hall, if_neg hmem]
  · -- agenda rows belong to the resolved tenant
    intro s e sf rows hok
    by_cases hmem :
        get_resolved_tenant_id db u ∈ get_allowed_tenant_ids db u
    · refine ⟨hmem, ?_⟩
      unfold list_agenda_events at hok
      rw [if_pos hmem] at hok
      simp only [AdminResult.ok.injEq] at hok
      intro ev hev
      rw [← hok] at hev
      rw [mem_sortByKeyAsc] at hev
      have h1 := List.mem_filter.mp hev
      have := h1.2
      simp only [decide_eq_true_eq] at this
      exact this.1
    · unfold list_agenda_events at hok
      rw [if_neg hmem] at hok
      exact absurd hok (by simp)

/-- Witness for C7: on the two-tenant database, the ceo sees tenant 5 in
its allowed set, the scoped staff identity is confined to its resolved
singleton, and its access to tenant 3 is rejected with 403. -/
theorem claim7_tenant_isolation_witness :
    (5 ∈ get_allowed_tenant_ids dbSec userCeo) ∧
      get_allowed_tenant_ids dbSec userPro = [get_resolved_tenant_id dbSec userPro] ∧
      get_chat_sessions dbSec userPro 3 = AdminResult.httpError 403 :=
  ⟨((claim7_tenant_isolation dbSec userCeo (by decide)).1 rfl 5).mpr
      ⟨{ id := 5, clinicName := "B", botPhoneNumber := "+5",
         nicheType := some "crm_sales" }, by decide, rfl⟩,
    (claim7_tenant_isolation dbSec userPro (by decide)).2.1 (by decide),
    ((claim7_tenant_isolation dbSec userPro (by decide)).2.2.1 3 (by decide)).1⟩

end CrmVentas
